import Mathlib

/-!
Shallow embedding of `src/inetman.py` (RunPON fork): the elapsed-time
`Timer`, the interface-presence probe `wait_for_iface`, the command runner
`executeCommand`, the `connect`/`disconnect` controller, and the
`RunPONConfigParser` settings reader.

Python wall-clock times (`time.time()` floats) are modelled as rationals.
External effects are passed in explicitly: the clock is a stream of time
readings, the filesystem existence check and the process launcher are
function parameters, and executed commands are returned as a trace.
-/

namespace Inetman

/-- Python `int(x)` truncates a float toward zero. -/
def pyInt (q : ℚ) : Int := if 0 ≤ q then ⌊q⌋ else ⌈q⌉

/-! ## Timer (src/inetman.py lines 211-283) -/

/-- State of `Timer`: the `running` flag, the start instant `initSec`
(seconds, a Python float), and the display `format` string. -/
structure Timer where
  running : Bool
  initSec : ℚ
  format : String
deriving DecidableEq

/-- `Timer.reset`: set `initSec` to the current time; `running` unchanged. -/
def Timer.reset (st : Timer) (now : ℚ) : Timer := { st with initSec := now }

/-- `Timer.start`: set `running` to true; `initSec` unchanged. -/
def Timer.start (st : Timer) : Timer := { st with running := true }

/-- `Timer.restart`: `reset()` then `start()`. -/
def Timer.restart (st : Timer) (now : ℚ) : Timer := (st.reset now).start

/-- `Timer.stop`: set `running` to false; `initSec` unchanged. -/
def Timer.stop (st : Timer) : Timer := { st with running := false }

/-- `Timer.setStatus`: `'on'` restarts, `'off'` stops, anything else
falls through both branches and does nothing. -/
def Timer.setStatus (st : Timer) (status : String) (now : ℚ) : Timer :=
  if status = "on" then st.restart now
  else if status = "off" then st.stop
  else st

/-- `Timer.__float__`: `time.time() - self.initSec`, computed without
consulting the `running` flag. -/
def Timer.toFloat (st : Timer) (now : ℚ) : ℚ := now - st.initSec

/-- `Timer.__int__`: `int(time.time() - self.initSec)`, again without
consulting the `running` flag. -/
def Timer.toInt (st : Timer) (now : ℚ) : Int := pyInt (now - st.initSec)

/-! ## time.gmtime / time.strftime (the fragment `Timer.getTime` uses) -/

/-- Broken-down time of day, the fields of `time.struct_time` that the
hours:minutes:seconds display formats read. -/
structure TimeStruct where
  hour : Nat
  min : Nat
  sec : Nat
deriving DecidableEq

/-- `time.gmtime(t)`: split seconds-since-epoch into a time of day
(the date fields are not modelled; no format used by the program reads
them). -/
def gmtime (t : Int) : TimeStruct :=
  let tod : Nat := (t.emod 86400).toNat
  { hour := tod / 3600, min := tod % 3600 / 60, sec := tod % 60 }

/-- `Timer._timeZero = time.gmtime(0)`: midnight. -/
def timeZero : TimeStruct := gmtime 0

/-- Zero-pad a field to two digits, as `strftime` does for `%H`, `%M`,
`%S`. -/
def pad2 (n : Nat) : List Char :=
  if n < 10 then '0' :: (Nat.repr n).data else (Nat.repr n).data

/-- Expansion of one `strftime` directive character for the time-of-day
fields; `%%` is a literal percent and an unknown directive is kept
verbatim. -/
def directive (ts : TimeStruct) : Char → List Char
  | 'H' => pad2 ts.hour
  | 'M' => pad2 ts.min
  | 'S' => pad2 ts.sec
  | '%' => ['%']
  | c => ['%', c]

/-- Character-list worker for `strftime`. -/
def strftimeAux (ts : TimeStruct) : List Char → List Char
  | [] => []
  | '%' :: c :: rest => directive ts c ++ strftimeAux ts rest
  | ['%'] => ['%']
  | c :: rest => c :: strftimeAux ts rest

/-- `time.strftime(fmt, ts)` on the directives the program's time-of-day
formats use. -/
def strftime (fmt : String) (ts : TimeStruct) : String :=
  ⟨strftimeAux ts fmt.data⟩

/-- `Timer.getTime(format=None)`: render `time.gmtime(float(self))` while
running, and `_timeZero` while stopped; `None` means the stored format. -/
def Timer.getTime (st : Timer) (fmt : Option String) (now : ℚ) : String :=
  let f := fmt.getD st.format
  if st.running then strftime f (gmtime (pyInt (st.toFloat now)))
  else strftime f timeZero

/-! ## wait_for_iface (src/inetman.py lines 318-326)

The probe reads the wall clock once to compute the deadline and once per
loop test; `clock k` is the k-th reading (reading 0 sets the deadline).
`ex k` is the result the filesystem existence check would give at the
k-th check. `time.sleep(interval)` only advances the clock, so it is
absorbed into the clock stream; `fuel` bounds the recursion and the
theorems quantify over it. -/

/-- Loop body of `wait_for_iface`: while the current reading is before
the deadline, perform the existence check, returning true on success.
Returns the result together with the number of checks performed. -/
def waitLoop (clock : Nat → ℚ) (ex : Nat → Bool) (deadline : ℚ) :
    Nat → Nat → Bool × Nat
  | 0, checks => (false, checks)
  | fuel + 1, checks =>
    if clock (checks + 1) < deadline then
      (if ex checks then (true, checks + 1)
       else waitLoop clock ex deadline fuel (checks + 1))
    else (false, checks)

/-- `wait_for_iface(dev, timeout, interval)`: the deadline is the first
clock reading plus `timeout`. -/
def wait_for_iface (clock : Nat → ℚ) (ex : Nat → Bool) (timeout : ℚ)
    (fuel : Nat) : Bool × Nat :=
  waitLoop clock ex (clock 0 + timeout) fuel 0

/-! ## executeCommand (src/inetman.py lines 196-208) -/

/-- `executeCommand(cmdLine, _force)`. `dontRun` is the module-level
`DONT_RUN` flag. `launch` stands for `get_status_output(shlex.split(_))`:
`.ok (status, output)` when the child ran, `.error e` when any exception
was raised (missing executable, permission error, malformed command
line), in which case the caught exception text becomes the output and
the status is `None`. The second component counts launch attempts: in
dry-run mode no process is spawned. -/
def executeCommand (dontRun : Bool) (launch : String → Except String (Int × String))
    (cmdLine : String) (force : Bool) : (Option Int × String) × Nat :=
  if dontRun && !force then ((some 0, ""), 0)
  else
    match launch cmdLine with
    | .ok (status, output) => ((some status, output), 1)
    | .error e => ((none, e), 1)

/-! ## connect / disconnect (src/inetman.py lines 306-315) -/

/-- Command lines `connect` passes to `executeCommand`: none when the
initial `connected()` probe reports the interface present, the
configured 'on' command once otherwise (the wait loop only re-polls, it
runs no further commands). -/
def connectCmds (present : Bool) (onCmd : String) : List String :=
  if present then [] else [onCmd]

/-- Command lines `disconnect` passes to `executeCommand`: the
configured 'off' command when `connected()`, nothing otherwise. -/
def disconnectCmds (present : Bool) (offCmd : String) : List String :=
  if present then [offCmd] else []

/-- The `while wait and not connected(timeout=20): pass` loop: `oracle k`
is the result of the k-th `connected()` call (call 0 is the initial
check guarding `executeCommand`). Returns whether the loop has exited
within `fuel` further polls. -/
def connectWaitLoop (oracle : Nat → Bool) : Nat → Nat → Bool
  | 0, _ => false
  | fuel + 1, k => if oracle k then true else connectWaitLoop oracle fuel (k + 1)

/-- Whether `connect(wait)` has returned within `fuel` polls of its wait
loop: immediately when the initial probe is true or `wait` is false,
otherwise when some re-poll succeeds. -/
def connectReturns (oracle : Nat → Bool) (wait : Bool) (fuel : Nat) : Bool :=
  if oracle 0 then true
  else if wait then connectWaitLoop oracle fuel 1
  else true

/-- `connect(wait)` terminates on a given stream of probe results when it
returns within some finite number of polls. -/
def connectTerminates (oracle : Nat → Bool) (wait : Bool) : Prop :=
  ∃ fuel, connectReturns oracle wait fuel = true

/-! ## RunPONConfigParser (src/inetman.py lines 98-143) -/

/-- Values a `getValue` call can produce: the raw string, or a converted
integer or boolean. -/
inductive PyVal
  | str (s : String)
  | int (n : Int)
  | bool (b : Bool)
deriving DecidableEq

/-- The converters the program passes to `getValue` (`None` is modelled
as `Option.none` at the call site). -/
inductive Converter
  | toBool
  | toInt
deriving DecidableEq

/-- `configparser.Error` subclasses raised by `ConfigParser.get`. -/
inductive ConfErr
  | noSection
  | noOption
deriving DecidableEq

/-- Exceptions that escape the custom parser: the module imports
`configparser` (the Python 3 name) but its `except` clauses name the
unbound `ConfigParser`, so evaluating such a clause raises `NameError`. -/
inductive PyErr
  | nameError
deriving DecidableEq

/-- Contents of a `ConfigParser`: the `DEFAULT` option block and the
named sections. -/
structure Config where
  defaults : List (String × String)
  sections : List (String × List (String × String))

/-- First binding of a key in an option block. -/
def lookupOpt {α : Type} (opts : List (String × α)) (key : String) : Option α :=
  (opts.find? (fun p => p.1 = key)).map (·.2)

/-- `ConfigParser.get(section, key)`: values of a named section fall back
to the `DEFAULT` block; a missing section or option raises a
`configparser.Error`. -/
def Config.get (cfg : Config) (sect key : String) : Except ConfErr String :=
  if sect = "DEFAULT" then
    match lookupOpt cfg.defaults key with
    | some v => .ok v
    | none => .error .noOption
  else
    match lookupOpt cfg.sections sect with
    | none => .error .noSection
    | some opts =>
      match lookupOpt opts key with
      | some v => .ok v
      | none =>
        match lookupOpt cfg.defaults key with
        | some v => .ok v
        | none => .error .noOption

/-- `ConfigParser.has_section` (the `DEFAULT` block is not a section). -/
def Config.hasSection (cfg : Config) (name : String) : Bool :=
  (lookupOpt cfg.sections name).isSome

/-- `RunPONConfigParser.getActiveSection`: read the `active` option of
`DEFAULT`, falling back to `DEFAULT` when the named section does not
exist. When the read raises, the handler `except ConfigParser.Error`
itself raises `NameError` (unbound name), which propagates instead of
selecting the fallback. -/
def getActiveSection (cfg : Config) : Except PyErr String :=
  match cfg.get "DEFAULT" "active" with
  | .ok active => .ok (if cfg.hasSection active then active else "DEFAULT")
  | .error _ => .error .nameError

/-- `ConfigParser._boolean_states`. -/
def boolean_states : List (String × Bool) :=
  [("1", true), ("yes", true), ("true", true), ("on", true),
   ("0", false), ("no", false), ("false", false), ("off", false)]

/-- Python `str.lower()`. -/
def pyLower (s : String) : String := s.map Char.toLower

/-- The conversion step of `getValue`: a `bool` converter indexes
`_boolean_states` with the lowercased value, any other converter is
called on the value; `none` is a raised exception, caught by the inner
`except Exception`. -/
def applyConv : Converter → String → Option PyVal
  | .toBool, v => (lookupOpt boolean_states (pyLower v)).map PyVal.bool
  | .toInt, v => (v.trim.toInt?).map PyVal.int

/-- Default substitution performed before the lookup (lines 108-109): a
`bool` converter with no explicit default defaults to `False`. -/
def defaultFor (conv : Option Converter) (default0 : Option PyVal) : Option PyVal :=
  if conv = some .toBool ∧ default0 = none then some (PyVal.bool false) else default0

/-- `RunPONConfigParser.getValue(key, converter, default)`. An empty
stored value counts as missing and yields the default, and a failed
conversion yields the default; but a failed *lookup* (a
`configparser.Error` from `getActiveSection` or `self.get`) reaches the
broken `except ConfigParser.Error` clause and escapes as `NameError`
instead of returning the default. -/
def getValue (cfg : Config) (key : String) (conv : Option Converter)
    (default0 : Option PyVal) : Except PyErr (Option PyVal) :=
  match getActiveSection cfg with
  | .error e => .error e
  | .ok active =>
    match cfg.get active key with
    | .error _ => .error .nameError
    | .ok value =>
      if value = "" then .ok (defaultFor conv default0)
      else
        match conv with
        | none => .ok (some (PyVal.str value))
        | some c =>
          match applyConv c value with
          | none => .ok (defaultFor conv default0)
          | some v => .ok (some v)

/-! ## Helper lemmas -/

/-- Characterization of the `connect` wait loop: it exits within `fuel`
further polls exactly when one of those polls reports the interface
present. -/
theorem connectWaitLoop_eq_true (oracle : Nat → Bool) :
    ∀ fuel k, connectWaitLoop oracle fuel k = true ↔
      ∃ j, j < fuel ∧ oracle (k + j) = true := by
  intro fuel
  induction fuel with
  | zero => intro k; simp [connectWaitLoop]
  | succ n ih =>
    intro k
    constructor
    · intro h
      by_cases hk : oracle k = true
      · exact ⟨0, Nat.succ_pos n, by simpa using hk⟩
      · have h2 : connectWaitLoop oracle n (k + 1) = true := by
          simpa [connectWaitLoop, hk] using h
        rcases (ih (k + 1)).mp h2 with ⟨j, hj, ho⟩
        exact ⟨j + 1, by omega, by rwa [show k + (j + 1) = k + 1 + j by omega]⟩
    · rintro ⟨j, hj, ho⟩
      by_cases hk : oracle k = true
      · simp [connectWaitLoop, hk]
      · simp only [connectWaitLoop, hk, if_false]
        cases j with
        | zero => exact absurd (by simpa using ho) hk
        | succ j =>
          exact (ih (k + 1)).mpr ⟨j, by omega, by rwa [show k + 1 + j = k + (j + 1) by omega]⟩

/-! ## Claims -/

/-- C1, counterexample: a stopped timer with `startInstant = 0` queried
at time 5 reports elapsed 5, not the 0 the claim requires for a
non-running timer. -/
theorem C1_counterexample :
    Timer.toFloat { running := false, initSec := 0, format := "%H:%M:%S" } 5 ≠ 0 := by
  norm_num [Timer.toFloat]

/-- C1, amended: the raw elapsed-seconds queries (`__float__`,
`__int__`) return `now − startInstant` whether or not the timer is
running — the `running` flag does not affect them at all. -/
theorem C1_elapsed_ignores_running (st : Timer) (now : ℚ) :
    st.toFloat now = now - st.initSec ∧ st.toInt now = pyInt (now - st.initSec) ∧
    st.stop.toFloat now = st.start.toFloat now := by
  refine ⟨rfl, rfl, ?_⟩
  simp [Timer.toFloat, Timer.stop, Timer.start]

/-- C2, counterexample: with `timeout = 0` the probe returns false
having performed zero existence checks, even against an interface whose
check would report present. -/
theorem C2_counterexample :
    wait_for_iface (fun _ => 0) (fun _ => true) 0 5 = (false, 0) := by
  simp [wait_for_iface, waitLoop]

/-- C2, amended: with `timeoutSeconds ≤ 0` and a monotone clock the
deadline is not after the first loop reading, so the probe performs no
existence check and returns false immediately. -/
theorem C2_nonpositive_timeout_skips_check (clock : Nat → ℚ) (ex : Nat → Bool)
    (timeout : ℚ) (fuel : Nat)
    (hmono : ∀ i j, i ≤ j → clock i ≤ clock j) (ht : timeout ≤ 0) :
    wait_for_iface clock ex timeout fuel = (false, 0) := by
  have hdead : ¬ clock 1 < clock 0 + timeout := by
    have h01 : clock 0 ≤ clock 1 := hmono 0 1 (by omega)
    have : clock 0 + timeout ≤ clock 0 := by linarith
    linarith
  cases fuel with
  | zero => rfl
  | succ n => simp [wait_for_iface, waitLoop, hdead]

/-- C2, witness for the amended theorem. -/
theorem C2_witness :
    (∀ i j : Nat, i ≤ j → (fun _ : Nat => (0 : ℚ)) i ≤ (fun _ : Nat => (0 : ℚ)) j) ∧
    (0 : ℚ) ≤ 0 ∧
    wait_for_iface (fun _ => 0) (fun _ => false) 0 7 = (false, 0) :=
  ⟨fun _ _ _ => le_refl 0, le_refl 0,
    C2_nonpositive_timeout_skips_check (fun _ => 0) (fun _ => false) 0 7
      (fun _ _ _ => le_refl 0) (le_refl 0)⟩

/-- C3, counterexample: when every `connected(timeout=20)` poll reports
the interface absent, `connect(wait=true)` from a disconnected start
never returns — the 20-second bound applies to each poll, not to the
enclosing `while` loop. -/
theorem C3_counterexample : ¬ connectTerminates (fun _ => false) true := by
  rintro ⟨fuel, h⟩
  simp only [connectReturns, if_false, Bool.false_eq_true] at h
  rcases (connectWaitLoop_eq_true (fun _ => false) fuel 1).mp h with ⟨j, -, ho⟩
  exact Bool.false_ne_true ho

/-- C3, amended: `connect(wait=true)` invoked while disconnected
terminates exactly when some poll of its wait loop eventually reports
the interface present; if the interface never becomes present the call
does not return. -/
theorem C3_wait_terminates_iff (oracle : Nat → Bool) :
    connectTerminates oracle true ↔
      (oracle 0 = true ∨ ∃ k, oracle (k + 1) = true) := by
  constructor
  · rintro ⟨fuel, h⟩
    by_cases h0 : oracle 0 = true
    · exact Or.inl h0
    · simp only [connectReturns, h0, if_false] at h
      rcases (connectWaitLoop_eq_true oracle fuel 1).mp h with ⟨j, -, ho⟩
      exact Or.inr ⟨j, by rwa [Nat.add_comm 1 j] at ho⟩
  · rintro (h0 | ⟨k, hk⟩)
    · exact ⟨0, by simp [connectReturns, h0]⟩
    · refine ⟨k + 1, ?_⟩
      by_cases h0 : oracle 0 = true
      · simp [connectReturns, h0]
      · simp only [connectReturns, h0, if_false]
        exact (connectWaitLoop_eq_true oracle (k + 1) 1).mpr
          ⟨k, by omega, by rwa [Nat.add_comm 1 k]⟩

/-- C4: whenever launching the command raises (missing executable,
permission error, malformed command line) and the call is not
short-circuited by dry-run, `executeCommand` returns status `None` with
the exception text as output — a reported, not fatal, outcome. -/
theorem C4_launch_failure_reported (dontRun force : Bool)
    (launch : String → Except String (Int × String)) (cmd e : String)
    (hfail : launch cmd = .error e) (hrun : dontRun = false ∨ force = true) :
    (executeCommand dontRun launch cmd force).1 = (none, e) := by
  rcases hrun with h | h <;> simp [executeCommand, h, hfail]

/-- C4, witness. -/
theorem C4_witness :
    ((fun _ : String => (Except.error "No such file or directory" :
        Except String (Int × String))) "pon" = .error "No such file or directory") ∧
    (executeCommand false (fun _ => .error "No such file or directory") "pon" false).1 =
      (none, "No such file or directory") :=
  ⟨rfl, C4_launch_failure_reported false false
    (fun _ => .error "No such file or directory") "pon" "No such file or directory"
    rfl (Or.inl rfl)⟩

/-- C5: with the dry-run flag set and `_force` false, `executeCommand`
attempts no launch (zero spawn attempts, the launcher is never
consulted) and returns exactly status 0 with empty output. -/
theorem C5_dry_run_no_spawn (launch : String → Except String (Int × String))
    (cmd : String) :
    executeCommand true launch cmd false = ((some 0, ""), 0) := rfl

/-- C6: `connect` while the interface is present executes no command and
while absent executes the configured on-command exactly once;
`disconnect` while absent executes no command. -/
theorem C6_idempotent_beyond_probe (onCmd offCmd : String) :
    connectCmds true onCmd = [] ∧ connectCmds false onCmd = [onCmd] ∧
    disconnectCmds false offCmd = [] := by
  refine ⟨rfl, rfl, rfl⟩

/-- C7: evaluation at the failing input. With active section `runpon`
not containing key `no_such_key`, `getValue` raises `NameError` (its
`except` clause names the unbound `ConfigParser`) instead of returning
the supplied default. -/
theorem C7_lookup_failure_raises :
    getValue { defaults := [("active", "runpon")], sections := [("runpon", [("on", "pon")])] }
      "no_such_key" none (some (PyVal.str "fallback")) = .error .nameError := rfl

/-- C8: rendering a stopped timer uses `_timeZero` — the result is the
pattern applied to midnight (the zero time of day), independent of the
stored start instant and the current time; under the program's
hours:minutes:seconds pattern that is the non-blank string
`"00:00:00"`. -/
theorem C8_stopped_renders_time_zero (st : Timer) (fmt : Option String) (now : ℚ)
    (h : st.running = false) :
    st.getTime fmt now = strftime (fmt.getD st.format) timeZero ∧
    Timer.getTime { running := false, initSec := st.initSec, format := "%H:%M:%S" }
      none now = "00:00:00" ∧
    ("00:00:00" : String) ≠ "" := by
  refine ⟨by simp [Timer.getTime, h], rfl, by decide⟩

/-- C8, witness. -/
theorem C8_witness :
    ({ running := false, initSec := 42, format := "%H:%M:%S" } : Timer).running = false ∧
    Timer.getTime { running := false, initSec := 42, format := "%H:%M:%S" } none 100 =
      strftime "%H:%M:%S" timeZero :=
  ⟨rfl, (C8_stopped_renders_time_zero
    { running := false, initSec := 42, format := "%H:%M:%S" } none 100 rfl).1⟩

/-- C9: `setStatus` with any status other than `'on'` or `'off'` falls
through both branches and leaves the timer state — running flag and
start instant — unchanged. -/
theorem C9_setStatus_other_is_noop (st : Timer) (status : String) (now : ℚ)
    (h1 : status ≠ "on") (h2 : status ≠ "off") :
    st.setStatus status now = st := by
  simp [Timer.setStatus, h1, h2]

/-- C9, witness. -/
theorem C9_witness :
    ("resume" ≠ "on") ∧ ("resume" ≠ "off") ∧
    Timer.setStatus { running := true, initSec := 7, format := "%H:%M:%S" } "resume" 99 =
      { running := true, initSec := 7, format := "%H:%M:%S" } :=
  ⟨by decide, by decide,
    C9_setStatus_other_is_noop { running := true, initSec := 7, format := "%H:%M:%S" }
      "resume" 99 (by decide) (by decide)⟩

/-- C10: when the stored value of a key is the empty string, `getValue`
treats the key as missing and returns the default; with a `bool`
converter and no explicit default that default is `False`. -/
theorem C10_empty_value_yields_default (cfg : Config) (active key : String)
    (conv : Option Converter) (default0 : Option PyVal)
    (hact : getActiveSection cfg = .ok active)
    (hval : cfg.get active key = .ok "") :
    getValue cfg key conv default0 = .ok (defaultFor conv default0) := by
  simp [getValue, hact, hval]

/-- C10, witness: a profile storing `run_off_if_fails` as the empty
string, read with the `bool` converter and no explicit default, yields
`False`. -/
theorem C10_witness :
    getActiveSection
      { defaults := [("active", "runpon")],
        sections := [("runpon", [("run_off_if_fails", "")])] } = .ok "runpon" ∧
    Config.get
      { defaults := [("active", "runpon")],
        sections := [("runpon", [("run_off_if_fails", "")])] }
      "runpon" "run_off_if_fails" = .ok "" ∧
    getValue
      { defaults := [("active", "runpon")],
        sections := [("runpon", [("run_off_if_fails", "")])] }
      "run_off_if_fails" (some .toBool) none = .ok (some (PyVal.bool false)) :=
  ⟨rfl, rfl,
    C10_empty_value_yields_default
      { defaults := [("active", "runpon")],
        sections := [("runpon", [("run_off_if_fails", "")])] }
      "runpon" "run_off_if_fails" (some .toBool) none rfl rfl⟩

end Inetman
